import Mathlib

/-!
Verification of the SWR software-rasterizer surface layout engine
(`swr_screen.cpp`: `swr_texture_layout`, `swr_displaytarget_layout`,
`swr_resource_create`) against its natural-language specification.

The C code is shallowly embedded: machine unsigned arithmetic is modelled
by `Nat` (no intermediate value in the claims' scope reaches 2^32, and the
final total-size computation is performed in 64-bit `size_t` in the
source), pointers by `Option Nat` (`none` = NULL), and the two
side-effecting collaborators (`AlignedMalloc` and the window-system
display-target allocator) by explicit oracle functions.
-/

set_option maxRecDepth 4000

namespace Swr

/-- The SWR hardware format tags used by this file (`SWR_FORMAT`).  Only the
constructors actually mentioned by `swr_screen.cpp`'s layout path are
modelled; `(SWR_FORMAT)-1` (no native representation) is modelled as `none`
at `Option SWR_FORMAT`. -/
inductive SWR_FORMAT where
  | R8_UINT
  | R16_UNORM
  | R16_UINT
  | R24_UNORM_X8_TYPELESS
  | R32_FLOAT
  | R32_UINT
  | R32_FLOAT_X8X24_TYPELESS
  | R32G32_UINT
  | R32G32B32A32_UINT
  | BC4_UNORM
  | BC5_UNORM
  | B8G8R8A8_UNORM
  deriving DecidableEq

/-- The slice of `util_format_description(format)` (plus the result of the
`mesa_to_swr_format` table lookup, lines 377-581) that `swr_texture_layout`
reads for a pipe format:
`block.width`, `block.height`, block size in bytes
(`util_format_get_blocksize`), `util_format_has_depth`,
`util_format_has_stencil`, `util_format_is_compressed`, and
`mesa_to_swr_format format` (`none` models `(SWR_FORMAT)-1`, i.e. the
format is absent from the `mesa2swr` map). -/
structure UtilFormatDescription where
  blockWidth : Nat
  blockHeight : Nat
  blockSize : Nat
  hasDepth : Bool
  hasStencil : Bool
  isCompressed : Bool
  mesaToSwr : Option SWR_FORMAT
  deriving DecidableEq

/-- The `enum pipe_texture_target` dimensionalities. -/
inductive pipe_texture_target where
  | PIPE_BUFFER
  | PIPE_TEXTURE_1D
  | PIPE_TEXTURE_1D_ARRAY
  | PIPE_TEXTURE_2D
  | PIPE_TEXTURE_RECT
  | PIPE_TEXTURE_2D_ARRAY
  | PIPE_TEXTURE_3D
  | PIPE_TEXTURE_CUBE
  | PIPE_TEXTURE_CUBE_ARRAY
  deriving DecidableEq

open pipe_texture_target

/-- The fields of `struct pipe_resource` read by the layout path.  The
`bind` bitfield is split into the five flags the file tests
(`PIPE_BIND_RENDER_TARGET`, `PIPE_BIND_DEPTH_STENCIL`,
`PIPE_BIND_DISPLAY_TARGET`, `PIPE_BIND_SCANOUT`, `PIPE_BIND_SHARED`). -/
structure pipe_resource where
  target : pipe_texture_target
  format : UtilFormatDescription
  width0 : Nat
  height0 : Nat
  depth0 : Nat
  array_size : Nat
  last_level : Nat
  nr_samples : Nat
  bind_render_target : Bool
  bind_depth_stencil : Bool
  bind_display_target : Bool
  bind_scanout : Bool
  bind_shared : Bool
  deriving DecidableEq

/-- The fields of `SWR_SURFACE_STATE` (`res->swr`, `res->secondary`)
written by `swr_texture_layout`.  `type` keeps the pipe target
(`swr_convert_target_type` is an injective external conversion whose image
is irrelevant here); the constant `tileMode = SWR_TILE_NONE` is omitted.
`pBaseAddress` is `some a` for a non-NULL pointer, `none` for NULL. -/
structure SWR_SURFACE_STATE where
  width : Nat
  height : Nat
  depth : Nat
  type : pipe_texture_target
  format : Option SWR_FORMAT
  pitch : Nat
  qpitch : Nat
  halign : Nat
  valign : Nat
  numSamples : Nat
  pBaseAddress : Option Nat
  deriving DecidableEq

/-- The fields of `struct swr_resource` written by the layout/create path.
`secondary = none` means the secondary (stencil) surface was never filled
in; `display_target` is the winsys handle (`none` = not a display
target). -/
structure swr_resource where
  base : pipe_resource
  swr : SWR_SURFACE_STATE
  secondary : Option SWR_SURFACE_STATE
  mip_offsets : List Nat
  secondary_mip_offsets : List Nat
  has_depth : Bool
  has_stencil : Bool
  display_target : Option Nat
  deriving DecidableEq

/-- Line 61: `SWR_MAX_TEXTURE_SIZE` = `4 * 1024 * 1024 * 1024ULL` (4 GiB). -/
def SWR_MAX_TEXTURE_SIZE : Nat := 4 * 1024 * 1024 * 1024

/-- Modelled from the spec: `KNOB_MACROTILE_X_DIM` comes from the
rasterizer's `gen_knobs.h`, which is not part of this repository; the spec
gives 32 as the macrotile render-target alignment ("halign=32 blocks ...
typical render-target alignment"). -/
def KNOB_MACROTILE_X_DIM : Nat := 32

/-- Modelled from the spec: `KNOB_MACROTILE_Y_DIM`, see
`KNOB_MACROTILE_X_DIM`. -/
def KNOB_MACROTILE_Y_DIM : Nat := 32

/-- Mesa's `align` macro, `(value + alignment - 1) & ~(alignment - 1)`.
For a power-of-two `alignment` (the only alignments this driver produces:
1, or the macrotile knobs times a format block dimension) the bit mask
clears the low bits, i.e. subtracts the remainder modulo `alignment`,
which is how it is written here. -/
def align (value alignment : Nat) : Nat :=
  (value + alignment - 1) - (value + alignment - 1) % alignment

/-- Mesa's `u_minify(value, levels)` = `MAX2(value >> levels, 1)`. -/
def u_minify (value levels : Nat) : Nat := max 1 (value >>> levels)

/-- Mesa's `util_format_get_nblocksx(format, x)` =
`(x + blockwidth - 1) / blockwidth`. -/
def util_format_get_nblocksx (f : UtilFormatDescription) (x : Nat) : Nat :=
  (x + f.blockWidth - 1) / f.blockWidth

/-- Mesa's `util_format_get_nblocksy(format, y)` =
`(y + blockheight - 1) / blockheight`. -/
def util_format_get_nblocksy (f : UtilFormatDescription) (y : Nat) : Nat :=
  (y + f.blockHeight - 1) / f.blockHeight

/-- Mesa's `util_format_get_stride(format, width)` =
`util_format_get_nblocksx(format, width) * blocksize`. -/
def util_format_get_stride (f : UtilFormatDescription) (width : Nat) : Nat :=
  util_format_get_nblocksx f width * f.blockSize

/-- The `util_format_description(PIPE_FORMAT_R8_UINT)` data together with
`mesa_to_swr_format(PIPE_FORMAT_R8_UINT) = R8_UINT` (the `mesa2swr` map
contains `{PIPE_FORMAT_R8_UINT, R8_UINT}`). -/
def PIPE_FORMAT_R8_UINT_desc : UtilFormatDescription :=
  { blockWidth := 1, blockHeight := 1, blockSize := 1,
    hasDepth := false, hasStencil := false, isCompressed := false,
    mesaToSwr := some SWR_FORMAT.R8_UINT }

/-- Block width of an SWR format (4 for the BC block-compressed formats,
1 otherwise), as carried by the rasterizer's format info table. -/
def swrFormatBlockWidth : SWR_FORMAT → Nat
  | SWR_FORMAT.BC4_UNORM => 4
  | SWR_FORMAT.BC5_UNORM => 4
  | _ => 1

/-- Block height of an SWR format, see `swrFormatBlockWidth`. -/
def swrFormatBlockHeight : SWR_FORMAT → Nat
  | SWR_FORMAT.BC4_UNORM => 4
  | SWR_FORMAT.BC5_UNORM => 4
  | _ => 1

/-- Bytes per block of an SWR format, as carried by the rasterizer's
format info table. -/
def swrFormatBytesPerBlock : SWR_FORMAT → Nat
  | SWR_FORMAT.R8_UINT => 1
  | SWR_FORMAT.R16_UNORM => 2
  | SWR_FORMAT.R16_UINT => 2
  | SWR_FORMAT.R24_UNORM_X8_TYPELESS => 4
  | SWR_FORMAT.R32_FLOAT => 4
  | SWR_FORMAT.R32_UINT => 4
  | SWR_FORMAT.R32_FLOAT_X8X24_TYPELESS => 8
  | SWR_FORMAT.R32G32_UINT => 8
  | SWR_FORMAT.R32G32B32A32_UINT => 16
  | SWR_FORMAT.BC4_UNORM => 8
  | SWR_FORMAT.BC5_UNORM => 16
  | SWR_FORMAT.B8G8R8A8_UNORM => 4

/-- Modelled from the spec: `ComputeSurfaceOffset<false>(0,0,0,0,0,level,s)`
from the rasterizer's `memory/TilingFunctions.h`, which is not part of this
repository.  Per the spec's packing rule: level 0 sits at offset 0; level 1
starts at x = aligned width of level 0, y = 0; each level L >= 2 starts at
the same x with y increased by the aligned height of every previous level
1..L-1; the (x, y) position is converted to a byte offset as
`y * pitch + x * bytesPerBlock`, operating in block units for compressed
formats.  Alignment uses the surface's halign/valign scaled by the SWR
format's block dimensions, matching the layout computation. -/
def ComputeSurfaceOffset (level : Nat) (s : SWR_SURFACE_STATE) : Nat :=
  match s.format with
  | none => 0
  | some f =>
    let bw := swrFormatBlockWidth f
    let bh := swrFormatBlockHeight f
    let bs := swrFormatBytesPerBlock f
    match level with
    | 0 => 0
    | Nat.succ l =>
      let x := align s.width (s.halign * bw)
      let y := ((List.range l).map
        (fun i => align (u_minify s.height (i + 1)) (s.valign * bh))).sum
      ((y + bh - 1) / bh) * s.pitch + ((x + bw - 1) / bw) * bs

/-- Lines 624-631: the pipe format the layout math runs against — the
resource's own format, except that a stencil-only format (has stencil, no
depth) is replaced by `PIPE_FORMAT_R8_UINT`. -/
def swr_layout_fmt (pt : pipe_resource) : UtilFormatDescription :=
  if pt.format.hasStencil && !pt.format.hasDepth then PIPE_FORMAT_R8_UINT_desc
  else pt.format

/-- Lines 685-691: `res->swr.halign` — the macrotile X dimension for
render-target / depth-stencil bindings, else 1. -/
def swr_layout_halign (pt : pipe_resource) : Nat :=
  if pt.bind_render_target || pt.bind_depth_stencil then KNOB_MACROTILE_X_DIM
  else 1

/-- Lines 685-691: `res->swr.valign`, see `swr_layout_halign`. -/
def swr_layout_valign (pt : pipe_resource) : Nat :=
  if pt.bind_render_target || pt.bind_depth_stencil then KNOB_MACROTILE_Y_DIM
  else 1

/-- Line 693: the local `halign` — `res->swr.halign *
util_format_get_blockwidth(fmt)`. -/
def swr_halign_px (pt : pipe_resource) : Nat :=
  swr_layout_halign pt * (swr_layout_fmt pt).blockWidth

/-- Line 708: the local `valign` — `res->swr.valign *
util_format_get_blockheight(fmt)`. -/
def swr_valign_px (pt : pipe_resource) : Nat :=
  swr_layout_valign pt * (swr_layout_fmt pt).blockHeight

/-- Lines 694-697: the accumulated 1D width — level 0's aligned width
plus, for each level 1..last_level, the aligned width of
`u_minify(width0, level)` (the `for` loop translated as a sum over the
loop index). -/
def accum_width_1d (w0 halign last_level : Nat) : Nat :=
  align w0 halign +
    ((List.range last_level).map
      (fun i => align (u_minify w0 (i + 1)) halign)).sum

/-- Lines 694 and 709-714: the 2D pitch width — level 0's aligned width,
widened to the sum of levels 1 and 2's aligned widths when there are more
than 2 levels (`last_level > 1`) and that sum is larger. -/
def staircase_width (w0 halign last_level : Nat) : Nat :=
  if last_level > 1 then
    max (align w0 halign)
      (align (u_minify w0 1) halign + align (u_minify w0 2) halign)
  else align w0 halign

/-- Lines 719-729: the 2D stacked height — level 0's aligned height,
plus level 1's aligned height when `last_level == 1`, or the larger of
level 1's aligned height and the stacked sum of levels 2..last_level when
`last_level > 1` (the `for` loop accumulating `level2` translated as a sum
over the loop index). -/
def staircase_height (h0 valign last_level : Nat) : Nat :=
  if last_level = 1 then align h0 valign + align (u_minify h0 1) valign
  else if last_level > 1 then
    align h0 valign +
      max (align (u_minify h0 1) valign)
        (((List.range (last_level - 1)).map
          (fun i => align (u_minify h0 (i + 2)) valign)).sum)
  else align h0 valign

/-- Lines 695-699: the 1D / 1D-array branch.  All levels are laid
side-by-side on the X axis: `pitch` is a single block's byte size and
`qpitch` the block count of the accumulated width. -/
def swr_layout_pq_1d (pt : pipe_resource) : Nat × Nat :=
  ((swr_layout_fmt pt).blockSize,
   util_format_get_nblocksx (swr_layout_fmt pt)
     (accum_width_1d pt.width0 (swr_halign_px pt) pt.last_level))

/-- Lines 700-731: the 2D / 2D-array / 3D / cube branch ("staircase"
packing): `pitch` is the staircase width converted to a byte stride and
`qpitch` the staircase height converted to block rows. -/
def swr_layout_pq_2d (pt : pipe_resource) : Nat × Nat :=
  (util_format_get_stride (swr_layout_fmt pt)
     (staircase_width pt.width0 (swr_halign_px pt) pt.last_level),
   util_format_get_nblocksy (swr_layout_fmt pt)
     (staircase_height pt.height0 (swr_valign_px pt) pt.last_level))

/-- Lines 693-731: pitch and qpitch, dispatching between the 1D and the
2D/3D branches on the texture target. -/
def swr_layout_pitch_qpitch (pt : pipe_resource) : Nat × Nat :=
  if pt.target = PIPE_TEXTURE_1D ∨ pt.target = PIPE_TEXTURE_1D_ARRAY then
    swr_layout_pq_1d pt
  else swr_layout_pq_2d pt

/-- Lines 739-759: fix up the SWR format when `mesa_to_swr_format`
returned `(SWR_FORMAT)-1`, substituting a same-byte-size generic format so
that LOD offset computation works.  The `unreachable` default of the
switch is modelled as `none`. -/
def swr_fixup_format (fmt : UtilFormatDescription) : Option SWR_FORMAT :=
  match fmt.mesaToSwr with
  | some f => some f
  | none =>
    if fmt.blockSize = 1 then some SWR_FORMAT.R8_UINT
    else if fmt.blockSize = 2 then some SWR_FORMAT.R16_UINT
    else if fmt.blockSize = 4 then some SWR_FORMAT.R32_UINT
    else if fmt.blockSize = 8 then
      some (if fmt.isCompressed then SWR_FORMAT.BC4_UNORM
            else SWR_FORMAT.R32G32_UINT)
    else if fmt.blockSize = 16 then
      some (if fmt.isCompressed then SWR_FORMAT.BC5_UNORM
            else SWR_FORMAT.R32G32B32A32_UINT)
    else none

/-- Lines 678-759: the `res->swr` surface state as it stands after the
pitch/qpitch/depth/format computation and the format fixup, before any
allocation (`pBaseAddress` still NULL). -/
def swr_layout_state (pt : pipe_resource) : SWR_SURFACE_STATE :=
  let pq := swr_layout_pitch_qpitch pt
  { width := pt.width0
    height := pt.height0
    depth := if pt.target = PIPE_TEXTURE_3D then pt.depth0 else pt.array_size
    type := pt.target
    format := swr_fixup_format (swr_layout_fmt pt)
    pitch := pq.1
    qpitch := pq.2
    halign := swr_layout_halign pt
    valign := swr_layout_valign pt
    numSamples := max 1 pt.nr_samples
    pBaseAddress := none }

/-- Lines 761-764: `res->mip_offsets[level]` for level 0..last_level. -/
def swr_mip_offsets (pt : pipe_resource) : List Nat :=
  (List.range (pt.last_level + 1)).map
    (fun l => ComputeSurfaceOffset l (swr_layout_state pt))

/-- Lines 766-767: `total_size = (size_t)depth * qpitch * pitch`. -/
def swr_total_size (pt : pipe_resource) : Nat :=
  (swr_layout_state pt).depth * (swr_layout_state pt).qpitch *
    (swr_layout_state pt).pitch

/-- The outcome of `swr_texture_layout`: its boolean return value, the
`swr_resource` as mutated, and the trace of sizes passed to
`AlignedMalloc` (in call order). -/
structure LayoutResult where
  ok : Bool
  res : swr_resource
  allocs : List Nat
  deriving DecidableEq

/-- Lines 617-791: `swr_texture_layout(screen, res, allocate)`.  `alloc`
is the `AlignedMalloc` oracle (size → possibly-NULL pointer; the constant
64-byte alignment argument is omitted).  The function fills in the surface
state and mip offsets, fails (returns false) exactly when the total byte
size exceeds `SWR_MAX_TEXTURE_SIZE`, and otherwise — when `allocate` is
set — stores the allocator's result unchecked, deriving and allocating the
R8_UINT secondary stencil surface for combined depth+stencil formats. -/
def swr_texture_layout (pt : pipe_resource) (allocate : Bool)
    (alloc : Nat → Option Nat) : LayoutResult :=
  let fmt := swr_layout_fmt pt
  let st := swr_layout_state pt
  let base_res : swr_resource :=
    { base := pt
      swr := st
      secondary := none
      mip_offsets := swr_mip_offsets pt
      secondary_mip_offsets := []
      has_depth := pt.format.hasDepth
      has_stencil := pt.format.hasStencil
      display_target := none }
  let total := swr_total_size pt
  if total > SWR_MAX_TEXTURE_SIZE then
    { ok := false, res := base_res, allocs := [] }
  else if allocate then
    let p := alloc total
    let res1 := { base_res with swr := { st with pBaseAddress := p } }
    if pt.format.hasDepth && pt.format.hasStencil then
      let sec0 := { st with format := some SWR_FORMAT.R8_UINT,
                            pitch := st.pitch / fmt.blockSize }
      let smips := (List.range (pt.last_level + 1)).map
        (fun l => ComputeSurfaceOffset l sec0)
      let stotal := sec0.depth * sec0.qpitch * sec0.pitch
      let sp := alloc stotal
      { ok := true
        res := { res1 with
                  secondary := some { sec0 with pBaseAddress := sp }
                  secondary_mip_offsets := smips }
        allocs := [total, stotal] }
    else
      { ok := true, res := res1, allocs := [total] }
  else
    { ok := true, res := base_res, allocs := [] }

/-- The slice of `struct sw_winsys` used by resource creation:
`displaytarget_create` (modelled on the aligned width/height arguments;
the bind/format/alignment arguments do not influence the control flow
verified here) returning a possibly-NULL handle, and `displaytarget_map`
returning a possibly-NULL mapping. -/
structure sw_winsys where
  displaytarget_create : Nat → Nat → Option Nat
  displaytarget_map : Nat → Option Nat

/-- Lines 583-615: `swr_displaytarget_layout`.  Creates a winsys display
target of the aligned dimensions; fails (FALSE) exactly when the winsys
returns NULL; on success records the handle and stores the (possibly
NULL) mapping as the surface base address. -/
def swr_displaytarget_layout (ws : sw_winsys) (res : swr_resource) :
    Bool × swr_resource :=
  let width := align res.swr.width res.swr.halign
  let height := align res.swr.height res.swr.valign
  match ws.displaytarget_create width height with
  | none => (false, res)
  | some dt =>
    (true, { res with display_target := some dt
                      swr := { res.swr with pBaseAddress :=
                                 ws.displaytarget_map dt } })

/-- Modelled from the spec: `swr_resource_is_texture` is declared in
`swr_resource.h`, which is not part of this repository's sources.  Per the
spec's data model, every dimensionality except plain buffers is a texture
("other data (vertex buffer, const buffer, etc)" take the non-texture
path). -/
def swr_resource_is_texture (pt : pipe_resource) : Bool :=
  pt.target ≠ pipe_texture_target.PIPE_BUFFER

/-- Lines 803-848: `swr_resource_create` (with the `CALLOC_STRUCT` oracle
assumed to succeed).  For displayable textures it runs the layout without
allocating — discarding the boolean result — and then fails only if
`swr_displaytarget_layout` fails; every other resource runs the layout
with allocation and fails when it returns false. -/
def swr_resource_create (ws : sw_winsys) (alloc : Nat → Option Nat)
    (templat : pipe_resource) : Option swr_resource :=
  if swr_resource_is_texture templat then
    if templat.bind_display_target || templat.bind_scanout ||
        templat.bind_shared then
      let r := swr_texture_layout templat false alloc
      let dtr := swr_displaytarget_layout ws r.res
      if dtr.1 then some dtr.2 else none
    else
      let r := swr_texture_layout templat true alloc
      if r.ok then some r.res else none
  else
    let r := swr_texture_layout templat true alloc
    if r.ok then some r.res else none

/-! ### Helper lemmas -/

lemma list_range_map_sum (f : Nat → Nat) (n : Nat) :
    ((List.range n).map f).sum = ∑ i in Finset.range n, f i := by
  induction n with
  | zero => rfl
  | succ k ih =>
      rw [List.range_succ, List.map_append, List.sum_append,
        Finset.sum_range_succ, ih]
      simp

/-- The `level2` accumulation loop (levels 2..n) as a closed interval
sum. -/
lemma sum_levels_from_two (f : Nat → Nat) (n : Nat) :
    ((List.range (n + 1)).map (fun i => f (i + 2))).sum =
      ∑ L in Finset.Icc 2 (n + 2), f L := by
  rw [list_range_map_sum, ← Nat.Ico_succ_right, Finset.sum_Ico_eq_sum_range]
  have h : n + 2 + 1 - 2 = n + 1 := by omega
  rw [h]
  exact Finset.sum_congr rfl (fun i _ => by rw [Nat.add_comm])

/-- The 1D width accumulation loop (levels 1..n) as a closed interval
sum. -/
lemma sum_levels_from_one (f : Nat → Nat) (n : Nat) :
    ((List.range n).map (fun i => f (i + 1))).sum =
      ∑ L in Finset.Icc 1 n, f L := by
  rw [list_range_map_sum, ← Nat.Ico_succ_right, Finset.sum_Ico_eq_sum_range]
  have h : n + 1 - 1 = n := by omega
  rw [h]
  exact Finset.sum_congr rfl (fun i _ => by rw [Nat.add_comm])

lemma nblocksx_of_bw_one (f : UtilFormatDescription) (h : f.blockWidth = 1)
    (x : Nat) : util_format_get_nblocksx f x = x := by
  simp [util_format_get_nblocksx, h]

lemma nblocksy_of_bh_one (f : UtilFormatDescription) (h : f.blockHeight = 1)
    (y : Nat) : util_format_get_nblocksy f y = y := by
  simp [util_format_get_nblocksy, h]

/-- Without `allocate`, `swr_texture_layout` leaves `res->swr` exactly as
computed by the state derivation, on the failure path too. -/
lemma swr_texture_layout_res_swr_no_alloc (pt : pipe_resource)
    (alloc : Nat → Option Nat) :
    (swr_texture_layout pt false alloc).res.swr = swr_layout_state pt := by
  by_cases h : swr_total_size pt > SWR_MAX_TEXTURE_SIZE <;>
    simp [swr_texture_layout, h]

/-- The function `swr_texture_layout` never modifies the caller's descriptor
(`res->base` keeps the logical format and dimensions). -/
lemma swr_texture_layout_res_base (pt : pipe_resource) (allocate : Bool)
    (alloc : Nat → Option Nat) :
    (swr_texture_layout pt allocate alloc).res.base = pt := by
  by_cases h : swr_total_size pt > SWR_MAX_TEXTURE_SIZE <;>
    cases hds : pt.format.hasDepth && pt.format.hasStencil <;>
    cases allocate <;>
    simp [swr_texture_layout, h, hds]

/-! ### Concrete descriptors for the witnesses and counterexamples -/

/-- A plain sampled (no render-target/depth-stencil/display bind) 2D
R8_UINT texture descriptor, the base for the concrete scenarios. -/
def base2D : pipe_resource :=
  { target := pipe_texture_target.PIPE_TEXTURE_2D
    format := PIPE_FORMAT_R8_UINT_desc
    width0 := 1
    height0 := 1
    depth0 := 1
    array_size := 1
    last_level := 0
    nr_samples := 0
    bind_render_target := false
    bind_depth_stencil := false
    bind_display_target := false
    bind_scanout := false
    bind_shared := false }

/-- 65536 x 65536 R8: total byte size exactly 4 GiB. -/
def exact4GiB_pt : pipe_resource :=
  { base2D with width0 := 65536, height0 := 65536 }

/-- 641 x 6700417 R8: total byte size 2^32 + 1, one byte over 4 GiB
(641 * 6700417 = 4294967297). -/
def over4GiB_pt : pipe_resource :=
  { base2D with width0 := 641, height0 := 6700417 }

/-! ### C1 -/

/-- C1: for every descriptor with `mipLevelCount >= 1` (always true:
`mipLevelCount = last_level + 1`) and width/height/depth >= 1,
`swr_texture_layout` fails exactly when the computed total byte size
`depth * qpitch * pitch` exceeds `SWR_MAX_TEXTURE_SIZE` (4 GiB) — a total
of exactly 4 GiB succeeds — and on failure no backing allocation is
performed (the `AlignedMalloc` trace is empty). -/
theorem swr_texture_layout_size_gate (pt : pipe_resource) (allocate : Bool)
    (alloc : Nat → Option Nat) (hw : 1 ≤ pt.width0) (hh : 1 ≤ pt.height0)
    (hd : 1 ≤ pt.depth0) :
    ((swr_texture_layout pt allocate alloc).ok = false ↔
      swr_total_size pt > SWR_MAX_TEXTURE_SIZE) ∧
    (swr_total_size pt > SWR_MAX_TEXTURE_SIZE →
      (swr_texture_layout pt allocate alloc).allocs = []) := by
  by_cases h : swr_total_size pt > SWR_MAX_TEXTURE_SIZE <;>
    cases hds : pt.format.hasDepth && pt.format.hasStencil <;>
    cases allocate <;>
    simp [swr_texture_layout, h, hds]

/-- Witness for C1, at the two boundary descriptors: the 4 GiB + 1 one
fails with no allocation, the exactly-4 GiB one succeeds. -/
theorem swr_texture_layout_size_gate_witness :
    (1 ≤ over4GiB_pt.width0 ∧ 1 ≤ over4GiB_pt.height0 ∧
      1 ≤ over4GiB_pt.depth0) ∧
    swr_total_size over4GiB_pt = SWR_MAX_TEXTURE_SIZE + 1 ∧
    (swr_texture_layout over4GiB_pt true (fun _ => none)).ok = false ∧
    (swr_texture_layout over4GiB_pt true (fun _ => none)).allocs = [] ∧
    swr_total_size exact4GiB_pt = SWR_MAX_TEXTURE_SIZE ∧
    (swr_texture_layout exact4GiB_pt true (fun _ => none)).ok = true := by
  refine ⟨by decide, by decide, ?_, ?_, by decide, by decide⟩
  · exact (swr_texture_layout_size_gate over4GiB_pt true (fun _ => none)
      (by decide) (by decide) (by decide)).1.mpr (by decide)
  · exact (swr_texture_layout_size_gate over4GiB_pt true (fun _ => none)
      (by decide) (by decide) (by decide)).2 (by decide)

/-! ### C4 -/

/-- C4: the total byte size that `swr_texture_layout` checks against the
maximum — and, when it allocates, passes to `AlignedMalloc` as the first
(primary) allocation — equals `depth * qpitch * pitch`, where `depth` is
the 3D depth extent for `PIPE_TEXTURE_3D` and the array-layer count for
every other dimensionality. -/
theorem swr_total_size_depth_qpitch_pitch (pt : pipe_resource)
    (alloc : Nat → Option Nat) :
    (swr_layout_state pt).depth =
      (if pt.target = pipe_texture_target.PIPE_TEXTURE_3D then pt.depth0
       else pt.array_size) ∧
    ((swr_texture_layout pt true alloc).ok = true ↔
      (if pt.target = pipe_texture_target.PIPE_TEXTURE_3D then pt.depth0
       else pt.array_size) * (swr_layout_state pt).qpitch *
        (swr_layout_state pt).pitch ≤ SWR_MAX_TEXTURE_SIZE) ∧
    ((swr_texture_layout pt true alloc).ok = true →
      (swr_texture_layout pt true alloc).allocs.head? =
        some ((if pt.target = pipe_texture_target.PIPE_TEXTURE_3D then
                 pt.depth0 else pt.array_size) *
              (swr_layout_state pt).qpitch * (swr_layout_state pt).pitch)) := by
  have hdepth : (swr_layout_state pt).depth =
      (if pt.target = pipe_texture_target.PIPE_TEXTURE_3D then pt.depth0
       else pt.array_size) := rfl
  have htotal : swr_total_size pt =
      (if pt.target = pipe_texture_target.PIPE_TEXTURE_3D then pt.depth0
       else pt.array_size) * (swr_layout_state pt).qpitch *
        (swr_layout_state pt).pitch := rfl
  refine ⟨hdepth, ?_, ?_⟩ <;>
    rw [← htotal] <;>
    by_cases h : swr_total_size pt > SWR_MAX_TEXTURE_SIZE <;>
    cases hds : pt.format.hasDepth && pt.format.hasStencil <;>
    simp [swr_texture_layout, h, hds] <;>
    omega

/-- Witness for C4 at a concrete 3D descriptor (8 x 8 x 5 R8, 1 array
layer): the reported allocation size is `depth0 * qpitch * pitch`
= 5 * 8 * 8 = 320 bytes. -/
theorem swr_total_size_depth_qpitch_pitch_witness :
    ((swr_texture_layout
        { base2D with target := pipe_texture_target.PIPE_TEXTURE_3D,
                      width0 := 8, height0 := 8, depth0 := 5 }
        true (fun _ => some 64)).ok = true →
      (swr_texture_layout
        { base2D with target := pipe_texture_target.PIPE_TEXTURE_3D,
                      width0 := 8, height0 := 8, depth0 := 5 }
        true (fun _ => some 64)).allocs.head? = some (5 * 8 * 8)) ∧
    (swr_texture_layout
        { base2D with target := pipe_texture_target.PIPE_TEXTURE_3D,
                      width0 := 8, height0 := 8, depth0 := 5 }
        true (fun _ => some 64)).ok = true := by
  refine ⟨fun hok => ?_, by decide⟩
  have h := (swr_total_size_depth_qpitch_pitch
    { base2D with target := pipe_texture_target.PIPE_TEXTURE_3D,
                  width0 := 8, height0 := 8, depth0 := 5 }
    (fun _ => some 64)).2.2 hok
  exact h.trans (by decide)

/-! ### C5 -/

/-- The `util_format_description(PIPE_FORMAT_Z24_UNORM_S8_UINT)` data: 1x1 block,
4 bytes, combined depth+stencil;
`mesa_to_swr_format(PIPE_FORMAT_Z24_UNORM_S8_UINT) = R24_UNORM_X8_TYPELESS`
(the map contains that entry). -/
def PIPE_FORMAT_Z24_UNORM_S8_UINT_desc : UtilFormatDescription :=
  { blockWidth := 1, blockHeight := 1, blockSize := 4,
    hasDepth := true, hasStencil := true, isCompressed := false,
    mesaToSwr := some SWR_FORMAT.R24_UNORM_X8_TYPELESS }

/-- A 2 x 2 Z24_UNORM_S8_UINT texture: primary total 2*8 = 16 bytes,
secondary (stencil) total 2*2 = 4 bytes. -/
def z24s8_pt : pipe_resource :=
  { base2D with width0 := 2, height0 := 2,
                format := PIPE_FORMAT_Z24_UNORM_S8_UINT_desc }

/-- An `AlignedMalloc` oracle under which the primary (16-byte)
allocation succeeds at address 4096 and every other — in particular the
secondary 4-byte stencil allocation — fails (returns NULL). -/
def primary_only_alloc : Nat → Option Nat :=
  fun n => if n = 16 then some 4096 else none

/-- Counterexample to C5: on a combined depth+stencil texture whose
primary allocation succeeds and whose secondary (stencil) allocation
fails, `swr_texture_layout` still returns true — it does not fail with an
out-of-memory error, the NULL secondary pointer is stored, and the
primary allocation is retained, not released. -/
theorem swr_texture_layout_oom_cex :
    (swr_texture_layout z24s8_pt true primary_only_alloc).ok = true ∧
    (swr_texture_layout z24s8_pt true
        primary_only_alloc).res.swr.pBaseAddress = some 4096 ∧
    ((swr_texture_layout z24s8_pt true
        primary_only_alloc).res.secondary.map
      (fun s => s.pBaseAddress)) = some none := by decide

/-- C5 as amended: `swr_texture_layout` never checks the result of
`AlignedMalloc` — whenever the size gate passes it returns true no matter
what the allocator returns, stores the possibly-NULL primary pointer
verbatim, and (for combined depth+stencil formats) stores the
possibly-NULL secondary pointer verbatim; no allocation is ever
released. -/
theorem swr_texture_layout_alloc_unchecked (pt : pipe_resource)
    (alloc : Nat → Option Nat)
    (h : ¬ swr_total_size pt > SWR_MAX_TEXTURE_SIZE) :
    (swr_texture_layout pt true alloc).ok = true ∧
    (swr_texture_layout pt true alloc).res.swr.pBaseAddress =
      alloc (swr_total_size pt) := by
  cases hds : pt.format.hasDepth && pt.format.hasStencil <;>
    simp [swr_texture_layout, h, hds]

/-- Witness for the amended C5: with an allocator that always fails, the
layout of the 2 x 2 depth+stencil texture still reports success and
stores NULL. -/
theorem swr_texture_layout_alloc_unchecked_witness :
    ¬ swr_total_size z24s8_pt > SWR_MAX_TEXTURE_SIZE ∧
    (swr_texture_layout z24s8_pt true (fun _ => none)).ok = true ∧
    (swr_texture_layout z24s8_pt true
        (fun _ => none)).res.swr.pBaseAddress = none := by
  refine ⟨by decide, ?_, ?_⟩
  · exact (swr_texture_layout_alloc_unchecked z24s8_pt (fun _ => none)
      (by decide)).1
  · exact (swr_texture_layout_alloc_unchecked z24s8_pt (fun _ => none)
      (by decide)).2

/-! ### C7 -/

/-- The `util_format_description(PIPE_FORMAT_X24S8_UINT)` data: a stencil-only
format (stencil in the low 8 bits, 24 padding bits, no depth channel),
1x1 block, 4 bytes, absent from the `mesa2swr` map. -/
def PIPE_FORMAT_X24S8_UINT_desc : UtilFormatDescription :=
  { blockWidth := 1, blockHeight := 1, blockSize := 4,
    hasDepth := false, hasStencil := true, isCompressed := false,
    mesaToSwr := none }

/-- A 4 x 4 X24S8_UINT (stencil-only, 4 bytes per pixel, no native SWR
format) texture. -/
def x24s8_pt : pipe_resource :=
  { base2D with width0 := 4, height0 := 4,
                format := PIPE_FORMAT_X24S8_UINT_desc }

/-- The `util_format_description(PIPE_FORMAT_DXT1_RGB)` data: S3TC block
compressed, 4x4 block, 8 bytes per block, absent from the `mesa2swr` map
(the DXT entries are commented out). -/
def PIPE_FORMAT_DXT1_RGB_desc : UtilFormatDescription :=
  { blockWidth := 4, blockHeight := 4, blockSize := 8,
    hasDepth := false, hasStencil := false, isCompressed := true,
    mesaToSwr := none }

/-- Counterexample to C7: `PIPE_FORMAT_X24S8_UINT` has no native SWR
representation and a 4-byte block, so the claimed substitution table
requires R32; but because the format is stencil-only the code first
replaces it wholesale with `PIPE_FORMAT_R8_UINT` (lines 630-631), and the
surface format ends up R8_UINT, not R32_UINT. -/
theorem swr_format_substitution_cex :
    x24s8_pt.format.mesaToSwr = none ∧
    x24s8_pt.format.blockSize = 4 ∧
    (swr_layout_state x24s8_pt).format = some SWR_FORMAT.R8_UINT ∧
    (swr_layout_state x24s8_pt).format ≠ some SWR_FORMAT.R32_UINT := by
  decide

/-- C7 as amended: for every descriptor whose logical format has no
native SWR representation **and is not stencil-only** (stencil-only
formats are first replaced wholesale by R8_UINT), the layout computation
substitutes the same-byte-size generic format — 1 → R8, 2 → R16,
4 → R32, 8 → BC4 if block-compressed else R32G32, 16 → BC5 if
block-compressed else R32G32B32A32 — purely for the surface state used in
offset/pitch computation, and the logical format in `res->base` exposed
to callers is unchanged. -/
theorem swr_format_substitution (pt : pipe_resource) (allocate : Bool)
    (alloc : Nat → Option Nat)
    (hns : (pt.format.hasStencil && !pt.format.hasDepth) = false)
    (hno : pt.format.mesaToSwr = none) :
    (swr_layout_state pt).format =
      (if pt.format.blockSize = 1 then some SWR_FORMAT.R8_UINT
       else if pt.format.blockSize = 2 then some SWR_FORMAT.R16_UINT
       else if pt.format.blockSize = 4 then some SWR_FORMAT.R32_UINT
       else if pt.format.blockSize = 8 then
         some (if pt.format.isCompressed then SWR_FORMAT.BC4_UNORM
               else SWR_FORMAT.R32G32_UINT)
       else if pt.format.blockSize = 16 then
         some (if pt.format.isCompressed then SWR_FORMAT.BC5_UNORM
               else SWR_FORMAT.R32G32B32A32_UINT)
       else none) ∧
    (swr_texture_layout pt allocate alloc).res.base = pt := by
  refine ⟨?_, swr_texture_layout_res_base pt allocate alloc⟩
  simp [swr_layout_state, swr_layout_fmt, hns, swr_fixup_format, hno]

/-- Witness for the amended C7 at a DXT1-like descriptor (8-byte
compressed block, no native format): the substituted surface format is
BC4. -/
theorem swr_format_substitution_witness :
    (({ base2D with format := PIPE_FORMAT_DXT1_RGB_desc
        : pipe_resource }).format.hasStencil &&
      !({ base2D with format := PIPE_FORMAT_DXT1_RGB_desc
          : pipe_resource }).format.hasDepth) = false ∧
    ({ base2D with format := PIPE_FORMAT_DXT1_RGB_desc
       : pipe_resource }).format.mesaToSwr = none ∧
    (swr_layout_state { base2D with format := PIPE_FORMAT_DXT1_RGB_desc
       }).format = some SWR_FORMAT.BC4_UNORM ∧
    (swr_texture_layout { base2D with format := PIPE_FORMAT_DXT1_RGB_desc
       } true (fun _ => none)).res.base =
      { base2D with format := PIPE_FORMAT_DXT1_RGB_desc } := by
  have h := swr_format_substitution
    { base2D with format := PIPE_FORMAT_DXT1_RGB_desc } true (fun _ => none)
    (by decide) (by decide)
  exact ⟨by decide, by decide, h.1.trans (by decide), h.2⟩

/-! ### C2 -/

/-- C2: for every 2D / 2D-array / 3D / cube descriptor, `qpitch` is the
block-row count of the aligned height: `align(height0, valign)` when
`mipLevelCount = 1`; plus `align(minify(height0,1), valign)`
unconditionally when `mipLevelCount = 2`; plus
`max(align(minify(height0,1), valign), sum_{L=2}^{last_level}
align(minify(height0,L), valign))` when `mipLevelCount > 2` — `valign`
being the vertical alignment times the format's block height. -/
theorem swr_layout_qpitch_staircase (pt : pipe_resource)
    (ht : pt.target = pipe_texture_target.PIPE_TEXTURE_2D ∨
      pt.target = pipe_texture_target.PIPE_TEXTURE_2D_ARRAY ∨
      pt.target = pipe_texture_target.PIPE_TEXTURE_3D ∨
      pt.target = pipe_texture_target.PIPE_TEXTURE_CUBE) :
    (swr_layout_state pt).qpitch =
      util_format_get_nblocksy (swr_layout_fmt pt)
        (if pt.last_level + 1 = 1 then
           align pt.height0 (swr_valign_px pt)
         else if pt.last_level + 1 = 2 then
           align pt.height0 (swr_valign_px pt) +
             align (u_minify pt.height0 1) (swr_valign_px pt)
         else
           align pt.height0 (swr_valign_px pt) +
             max (align (u_minify pt.height0 1) (swr_valign_px pt))
               (∑ L in Finset.Icc 2 pt.last_level,
                 align (u_minify pt.height0 L) (swr_valign_px pt))) := by
  have h1 : ¬(pt.target = pipe_texture_target.PIPE_TEXTURE_1D ∨
      pt.target = pipe_texture_target.PIPE_TEXTURE_1D_ARRAY) := by
    rcases ht with h | h | h | h <;> rw [h] <;> simp
  have hq : (swr_layout_state pt).qpitch = (swr_layout_pq_2d pt).2 := by
    simp [swr_layout_state, swr_layout_pitch_qpitch, h1]
  rw [hq]
  show util_format_get_nblocksy _ _ = _
  congr 1
  cases hll : pt.last_level with
  | zero => simp [staircase_height]
  | succ k =>
    cases k with
    | zero => simp [staircase_height]
    | succ n =>
      simp only [staircase_height]
      rw [if_neg (by omega : ¬(n + 1 + 1 = 1)),
        if_pos (by omega : n + 1 + 1 > 1),
        if_neg (by omega : ¬(n + 1 + 1 + 1 = 1)),
        if_neg (by omega : ¬(n + 1 + 1 + 1 = 2))]
      have hsub : n + 1 + 1 - 1 = n + 1 := by omega
      rw [hsub]
      congr 1
      congr 1
      exact sum_levels_from_two
        (fun L => align (u_minify pt.height0 L) (swr_valign_px pt)) n

/-- Witness for C2 at a 16 x 16 five-level plain 2D texture (valign 1):
height = 16 + max(8, 4+2+1) = 24 rows, qpitch 24. -/
theorem swr_layout_qpitch_staircase_witness :
    (swr_layout_state
      { base2D with width0 := 16, height0 := 16, last_level := 4 }).qpitch
      = 24 :=
  (swr_layout_qpitch_staircase
    { base2D with width0 := 16, height0 := 16, last_level := 4 }
    (Or.inl rfl)).trans (by decide)

/-! ### C3 -/

/-- C3: for every 2D / 2D-array / 3D / cube descriptor, the pitch is the
byte stride of `align(width0, halign)` — `halign` being the horizontal
alignment times the format's block width — widened, only when
`mipLevelCount > 2`, to `align(minify(width0,1), halign) +
align(minify(width0,2), halign)` if that sum is larger. -/
theorem swr_layout_pitch_staircase (pt : pipe_resource)
    (ht : pt.target = pipe_texture_target.PIPE_TEXTURE_2D ∨
      pt.target = pipe_texture_target.PIPE_TEXTURE_2D_ARRAY ∨
      pt.target = pipe_texture_target.PIPE_TEXTURE_3D ∨
      pt.target = pipe_texture_target.PIPE_TEXTURE_CUBE) :
    (swr_layout_state pt).pitch =
      util_format_get_stride (swr_layout_fmt pt)
        (if 2 < pt.last_level + 1 then
           max (align pt.width0 (swr_halign_px pt))
             (align (u_minify pt.width0 1) (swr_halign_px pt) +
              align (u_minify pt.width0 2) (swr_halign_px pt))
         else align pt.width0 (swr_halign_px pt)) := by
  have h1 : ¬(pt.target = pipe_texture_target.PIPE_TEXTURE_1D ∨
      pt.target = pipe_texture_target.PIPE_TEXTURE_1D_ARRAY) := by
    rcases ht with h | h | h | h <;> rw [h] <;> simp
  have hp : (swr_layout_state pt).pitch = (swr_layout_pq_2d pt).1 := by
    simp [swr_layout_state, swr_layout_pitch_qpitch, h1]
  rw [hp]
  show util_format_get_stride _ _ = _
  congr 1
  simp only [staircase_width]
  by_cases h2 : pt.last_level > 1
  · rw [if_pos h2, if_pos (by omega)]
  · rw [if_neg h2, if_neg (by omega)]

/-- Witness for C3 at the spec's concrete scenario: width0 = 16,
mipLevelCount = 5, halign 1 — levels 1+2 sum to 12 < 16, so the pitch
(R8, 1 byte per pixel) stays 16. -/
theorem swr_layout_pitch_staircase_witness :
    (swr_layout_state
      { base2D with width0 := 16, height0 := 16, last_level := 4 }).pitch
      = 16 :=
  (swr_layout_pitch_staircase
    { base2D with width0 := 16, height0 := 16, last_level := 4 }
    (Or.inl rfl)).trans (by decide)

/-! ### C8 -/

/-- C8: for every 1D / 1D-array descriptor, the pitch is the format's
bytes-per-block and `qpitch` is the block count of the accumulated width:
level 0's width aligned to `horizontalAlign * blockWidth` plus the
aligned width of `minify(width0, L)` for each level L = 1..last_level. -/
theorem swr_layout_1d_packing (pt : pipe_resource)
    (ht : pt.target = pipe_texture_target.PIPE_TEXTURE_1D ∨
      pt.target = pipe_texture_target.PIPE_TEXTURE_1D_ARRAY) :
    (swr_layout_state pt).pitch = (swr_layout_fmt pt).blockSize ∧
    (swr_layout_state pt).qpitch =
      util_format_get_nblocksx (swr_layout_fmt pt)
        (align pt.width0 (swr_halign_px pt) +
          ∑ L in Finset.Icc 1 pt.last_level,
            align (u_minify pt.width0 L) (swr_halign_px pt)) := by
  have hq : swr_layout_pitch_qpitch pt = swr_layout_pq_1d pt := by
    simp [swr_layout_pitch_qpitch, ht]
  constructor
  · simp [swr_layout_state, hq, swr_layout_pq_1d]
  · have h2 : (swr_layout_state pt).qpitch = (swr_layout_pq_1d pt).2 := by
      simp [swr_layout_state, hq]
    rw [h2]
    show util_format_get_nblocksx _ _ = _
    congr 1
    simp only [accum_width_1d]
    congr 1
    exact sum_levels_from_one
      (fun L => align (u_minify pt.width0 L) (swr_halign_px pt))
      pt.last_level

/-- Witness for C8 at a 10-pixel three-level 1D R8 texture (halign 1):
pitch 1 byte, qpitch = 10 + 5 + 2 = 17 elements. -/
theorem swr_layout_1d_packing_witness :
    (swr_layout_state
      { base2D with target := pipe_texture_target.PIPE_TEXTURE_1D,
                    width0 := 10, last_level := 2 }).pitch = 1 ∧
    (swr_layout_state
      { base2D with target := pipe_texture_target.PIPE_TEXTURE_1D,
                    width0 := 10, last_level := 2 }).qpitch = 17 := by
  have h := swr_layout_1d_packing
    { base2D with target := pipe_texture_target.PIPE_TEXTURE_1D,
                  width0 := 10, last_level := 2 } (Or.inl rfl)
  exact ⟨h.1.trans (by decide), h.2.trans (by decide)⟩

/-! ### C9 -/

/-- The `util_format_description(PIPE_FORMAT_B8G8R8A8_UNORM)` data: 1x1 block,
4 bytes; `mesa_to_swr_format` maps it to `B8G8R8A8_UNORM`. -/
def PIPE_FORMAT_B8G8R8A8_UNORM_desc : UtilFormatDescription :=
  { blockWidth := 1, blockHeight := 1, blockSize := 4,
    hasDepth := false, hasStencil := false, isCompressed := false,
    mesaToSwr := some SWR_FORMAT.B8G8R8A8_UNORM }

/-- C9: for every non-1D descriptor with `mipLevelCount = 1`, the
staircase degenerates to the single-level case — the pitch is the byte
stride of `align(width0, halign * blockWidth)` and `qpitch` the block-row
count of `align(height0, valign * blockHeight)`. -/
theorem swr_layout_single_level (pt : pipe_resource)
    (h1 : ¬(pt.target = pipe_texture_target.PIPE_TEXTURE_1D ∨
      pt.target = pipe_texture_target.PIPE_TEXTURE_1D_ARRAY))
    (h0 : pt.last_level + 1 = 1) :
    (swr_layout_state pt).pitch =
      util_format_get_stride (swr_layout_fmt pt)
        (align pt.width0 (swr_halign_px pt)) ∧
    (swr_layout_state pt).qpitch =
      util_format_get_nblocksy (swr_layout_fmt pt)
        (align pt.height0 (swr_valign_px pt)) := by
  have hll : pt.last_level = 0 := by omega
  constructor <;>
    simp [swr_layout_state, swr_layout_pitch_qpitch, h1, swr_layout_pq_2d,
      staircase_width, staircase_height, hll]

/-- Witness for C9 at the spec's concrete scenario: 257 x 130
B8G8R8A8_UNORM render target (macrotile alignment 32), one level —
pitch = align(257,32) * 4 = 288 * 4 = 1152 bytes, qpitch =
align(130,32) = 160 rows. -/
theorem swr_layout_single_level_witness :
    (swr_layout_state
      { base2D with width0 := 257, height0 := 130,
                    format := PIPE_FORMAT_B8G8R8A8_UNORM_desc,
                    bind_render_target := true }).pitch = 288 * 4 ∧
    (swr_layout_state
      { base2D with width0 := 257, height0 := 130,
                    format := PIPE_FORMAT_B8G8R8A8_UNORM_desc,
                    bind_render_target := true }).qpitch = 160 := by
  have h := swr_layout_single_level
    { base2D with width0 := 257, height0 := 130,
                  format := PIPE_FORMAT_B8G8R8A8_UNORM_desc,
                  bind_render_target := true }
    (by decide) rfl
  exact ⟨h.1.trans (by decide), h.2.trans (by decide)⟩

/-! ### C6 -/

/-- The synthetic stencil-only descriptor: the same logical dimensions,
mip count and bind flags, with the format replaced by the single-channel
1-byte R8_UINT format. -/
def stencil_resource (pt : pipe_resource) : pipe_resource :=
  { pt with format := PIPE_FORMAT_R8_UINT_desc }

lemma stencil_fmt (pt : pipe_resource) (hd : pt.format.hasDepth = true) :
    swr_layout_fmt pt = pt.format := by
  simp [swr_layout_fmt, hd]

lemma stencil_fmt_r8 (pt : pipe_resource) :
    swr_layout_fmt (stencil_resource pt) = PIPE_FORMAT_R8_UINT_desc := by
  simp [swr_layout_fmt, stencil_resource, PIPE_FORMAT_R8_UINT_desc]

lemma stencil_halign_px (pt : pipe_resource)
    (hd : pt.format.hasDepth = true) (hbw : pt.format.blockWidth = 1) :
    swr_halign_px (stencil_resource pt) = swr_halign_px pt := by
  unfold swr_halign_px
  rw [stencil_fmt_r8, stencil_fmt pt hd, hbw]
  rfl

lemma stencil_valign_px (pt : pipe_resource)
    (hd : pt.format.hasDepth = true) (hbh : pt.format.blockHeight = 1) :
    swr_valign_px (stencil_resource pt) = swr_valign_px pt := by
  unfold swr_valign_px
  rw [stencil_fmt_r8, stencil_fmt pt hd, hbh]
  rfl

/-- Running the pitch/qpitch derivation on the synthetic R8 descriptor
yields exactly the primary pitch divided by the primary format's byte
size, and the primary qpitch unchanged (for 1x1-block primary formats —
every combined depth+stencil pipe format has 1x1 blocks). -/
lemma stencil_pq (pt : pipe_resource)
    (hd : pt.format.hasDepth = true)
    (hbw : pt.format.blockWidth = 1) (hbh : pt.format.blockHeight = 1)
    (hbs : 0 < pt.format.blockSize) :
    (swr_layout_pitch_qpitch (stencil_resource pt)).1 =
      (swr_layout_pitch_qpitch pt).1 / pt.format.blockSize ∧
    (swr_layout_pitch_qpitch (stencil_resource pt)).2 =
      (swr_layout_pitch_qpitch pt).2 := by
  have hha := stencil_halign_px pt hd hbw
  have hva := stencil_valign_px pt hd hbh
  have hfmt := stencil_fmt pt hd
  by_cases h1 : pt.target = pipe_texture_target.PIPE_TEXTURE_1D ∨
      pt.target = pipe_texture_target.PIPE_TEXTURE_1D_ARRAY
  · have e1 : swr_layout_pitch_qpitch pt = swr_layout_pq_1d pt := by
      simp [swr_layout_pitch_qpitch, h1]
    have e2 : swr_layout_pitch_qpitch (stencil_resource pt) =
        swr_layout_pq_1d (stencil_resource pt) := by
      rcases h1 with h | h <;>
        simp [swr_layout_pitch_qpitch, stencil_resource, h]
    rw [e1, e2]
    simp only [swr_layout_pq_1d, stencil_fmt_r8, hfmt, hha]
    constructor
    · show (PIPE_FORMAT_R8_UINT_desc.blockSize : Nat) = _
      rw [show PIPE_FORMAT_R8_UINT_desc.blockSize = 1 from rfl,
        Nat.div_self hbs]
    · show util_format_get_nblocksx PIPE_FORMAT_R8_UINT_desc _ = _
      rw [nblocksx_of_bw_one _ rfl, nblocksx_of_bw_one _ hbw]
      show accum_width_1d (stencil_resource pt).width0 _
        (stencil_resource pt).last_level = _
      rfl
  · have e1 : swr_layout_pitch_qpitch pt = swr_layout_pq_2d pt := by
      simp [swr_layout_pitch_qpitch, h1]
    have h1S : ¬((stencil_resource pt).target =
        pipe_texture_target.PIPE_TEXTURE_1D ∨
        (stencil_resource pt).target =
        pipe_texture_target.PIPE_TEXTURE_1D_ARRAY) := h1
    have e2 : swr_layout_pitch_qpitch (stencil_resource pt) =
        swr_layout_pq_2d (stencil_resource pt) := by
      simp [swr_layout_pitch_qpitch, h1S]
    rw [e1, e2]
    simp only [swr_layout_pq_2d, stencil_fmt_r8, hfmt, hha, hva]
    constructor
    · show util_format_get_stride PIPE_FORMAT_R8_UINT_desc _ = _
      rw [util_format_get_stride, util_format_get_stride,
        nblocksx_of_bw_one _ rfl, nblocksx_of_bw_one _ hbw,
        show PIPE_FORMAT_R8_UINT_desc.blockSize = 1 from rfl,
        Nat.mul_one, Nat.mul_div_cancel _ hbs]
      rfl
    · show util_format_get_nblocksy PIPE_FORMAT_R8_UINT_desc _ = _
      rw [nblocksy_of_bh_one _ rfl, nblocksy_of_bh_one _ hbh]
      rfl

/-- The secondary surface state written at lines 775-777 — the primary
state with format R8_UINT and pitch divided by the primary byte size —
coincides, field for field, with the surface state the layout derivation
computes for the synthetic stencil-only descriptor. -/
lemma stencil_state_eq (pt : pipe_resource)
    (hd : pt.format.hasDepth = true)
    (hbw : pt.format.blockWidth = 1) (hbh : pt.format.blockHeight = 1)
    (hbs : 0 < pt.format.blockSize) :
    ({ swr_layout_state pt with
        format := some SWR_FORMAT.R8_UINT
        pitch := (swr_layout_state pt).pitch /
          (swr_layout_fmt pt).blockSize } : SWR_SURFACE_STATE) =
      swr_layout_state (stencil_resource pt) := by
  obtain ⟨hp, hq⟩ := stencil_pq pt hd hbw hbh hbs
  have hfmt := stencil_fmt pt hd
  have hfix : swr_fixup_format (swr_layout_fmt (stencil_resource pt)) =
      some SWR_FORMAT.R8_UINT := by
    rw [stencil_fmt_r8]
    rfl
  simp only [swr_layout_state, SWR_SURFACE_STATE.mk.injEq]
  and_intros <;>
    first
      | rfl
      | trivial
      | exact hfix.symm
      | (rw [hfmt]; exact hp.symm)
      | exact hq.symm

/-- The shape of the depth+stencil allocate branch (lines 771-787): the
secondary surface stored, the secondary mip offsets, and the primary
pitch. -/
lemma swr_texture_layout_ds_branch (pt : pipe_resource)
    (alloc : Nat → Option Nat)
    (hds : (pt.format.hasDepth && pt.format.hasStencil) = true)
    (hsz : ¬ swr_total_size pt > SWR_MAX_TEXTURE_SIZE) :
    (swr_texture_layout pt true alloc).res.secondary =
      some { swr_layout_state pt with
              format := some SWR_FORMAT.R8_UINT
              pitch := (swr_layout_state pt).pitch /
                (swr_layout_fmt pt).blockSize
              pBaseAddress := alloc ((swr_layout_state pt).depth *
                (swr_layout_state pt).qpitch *
                ((swr_layout_state pt).pitch /
                  (swr_layout_fmt pt).blockSize)) } ∧
    (swr_texture_layout pt true alloc).res.secondary_mip_offsets =
      (List.range (pt.last_level + 1)).map (fun l => ComputeSurfaceOffset l
        { swr_layout_state pt with
            format := some SWR_FORMAT.R8_UINT
            pitch := (swr_layout_state pt).pitch /
              (swr_layout_fmt pt).blockSize }) ∧
    (swr_texture_layout pt true alloc).res.swr.pitch =
      (swr_layout_state pt).pitch := by
  simp [swr_texture_layout, hsz, hds]

/-- C6: for every combined depth+stencil descriptor (1x1-block format, as
all combined depth+stencil pipe formats are) accepted by the size gate,
the allocate path derives a secondary stencil-only surface whose format
is `R8_UINT`, whose pitch is the primary pitch divided by the primary
format's byte size — which equals the pitch the same layout algorithm
computes for the synthetic R8 descriptor — whose qpitch equals the one
the same algorithm computes for that R8 descriptor, and whose per-level
offsets are recomputed by the same offset routine against the R8-formatted
surface state. -/
theorem swr_secondary_stencil_surface (pt : pipe_resource)
    (alloc : Nat → Option Nat)
    (hd : pt.format.hasDepth = true) (hs : pt.format.hasStencil = true)
    (hbw : pt.format.blockWidth = 1) (hbh : pt.format.blockHeight = 1)
    (hbs : 0 < pt.format.blockSize)
    (hsz : ¬ swr_total_size pt > SWR_MAX_TEXTURE_SIZE) :
    ∃ sec : SWR_SURFACE_STATE,
      (swr_texture_layout pt true alloc).res.secondary = some sec ∧
      sec.format = some SWR_FORMAT.R8_UINT ∧
      sec.pitch = (swr_texture_layout pt true alloc).res.swr.pitch /
        pt.format.blockSize ∧
      sec.pitch = (swr_layout_state (stencil_resource pt)).pitch ∧
      sec.qpitch = (swr_layout_state (stencil_resource pt)).qpitch ∧
      (swr_texture_layout pt true alloc).res.secondary_mip_offsets =
        swr_mip_offsets (stencil_resource pt) := by
  have hds : (pt.format.hasDepth && pt.format.hasStencil) = true := by
    rw [hd, hs]
    rfl
  obtain ⟨h1, h2, h3⟩ := swr_texture_layout_ds_branch pt alloc hds hsz
  have E := stencil_state_eq pt hd hbw hbh hbs
  have hfmt := stencil_fmt pt hd
  obtain ⟨hp, hq⟩ := stencil_pq pt hd hbw hbh hbs
  refine ⟨_, h1, rfl, ?_, ?_, ?_, ?_⟩
  · show (swr_layout_state pt).pitch / (swr_layout_fmt pt).blockSize = _
    rw [h3, hfmt]
  · show (swr_layout_state pt).pitch / (swr_layout_fmt pt).blockSize =
      (swr_layout_state (stencil_resource pt)).pitch
    rw [hfmt]
    exact hp.symm
  · show (swr_layout_state pt).qpitch =
      (swr_layout_state (stencil_resource pt)).qpitch
    exact hq.symm
  · rw [h2, E]
    rfl

/-- Witness for C6 at the 2 x 2 Z24_UNORM_S8_UINT texture. -/
theorem swr_secondary_stencil_surface_witness :
    ∃ sec : SWR_SURFACE_STATE,
      (swr_texture_layout z24s8_pt true (fun _ => some 7)).res.secondary =
        some sec ∧
      sec.format = some SWR_FORMAT.R8_UINT ∧
      sec.pitch = (swr_texture_layout z24s8_pt true
        (fun _ => some 7)).res.swr.pitch / z24s8_pt.format.blockSize ∧
      sec.pitch = (swr_layout_state (stencil_resource z24s8_pt)).pitch ∧
      sec.qpitch = (swr_layout_state (stencil_resource z24s8_pt)).qpitch ∧
      (swr_texture_layout z24s8_pt true
          (fun _ => some 7)).res.secondary_mip_offsets =
        swr_mip_offsets (stencil_resource z24s8_pt) :=
  swr_secondary_stencil_surface z24s8_pt (fun _ => some 7) rfl rfl rfl rfl
    (by decide) (by decide)

/-! ### C10 -/

/-- C10: for a texture bound as display target / scanout / shared,
`swr_resource_create` ignores the boolean result of `swr_texture_layout`:
creation succeeds if and only if the winsys display-target allocation (at
the halign/valign-aligned dimensions) succeeds, independently of the size
gate. -/
theorem swr_resource_create_display_ignores_layout (ws : sw_winsys)
    (alloc : Nat → Option Nat) (t : pipe_resource)
    (htex : swr_resource_is_texture t = true)
    (hbind : (t.bind_display_target || t.bind_scanout ||
      t.bind_shared) = true) :
    (swr_resource_create ws alloc t).isSome =
      (ws.displaytarget_create (align t.width0 (swr_layout_halign t))
        (align t.height0 (swr_layout_valign t))).isSome := by
  have hsw : (swr_texture_layout t false alloc).res.swr =
      swr_layout_state t := swr_texture_layout_res_swr_no_alloc t alloc
  unfold swr_resource_create swr_displaytarget_layout
  rw [if_pos htex, if_pos hbind]
  simp only [hsw]
  have hw : (swr_layout_state t).width = t.width0 := rfl
  have hh : (swr_layout_state t).height = t.height0 := rfl
  have hha : (swr_layout_state t).halign = swr_layout_halign t := rfl
  have hva : (swr_layout_state t).valign = swr_layout_valign t := rfl
  rw [hw, hh, hha, hva]
  cases hdt : ws.displaytarget_create (align t.width0 (swr_layout_halign t))
      (align t.height0 (swr_layout_valign t)) <;>
    simp [hdt]

/-- A winsys whose display-target allocation always succeeds. -/
def always_winsys : sw_winsys :=
  { displaytarget_create := fun _ _ => some 1
    displaytarget_map := fun _ => some 0 }

/-- A 641 x 6700417 R8 display-target texture: its computed total byte
size is one byte over the 4 GiB maximum. -/
def over4GiB_dt_pt : pipe_resource :=
  { base2D with width0 := 641, height0 := 6700417,
                bind_display_target := true }

/-- Witness for C10: the one-byte-over-4-GiB displayable texture — whose
layout fails the size gate — is still created successfully when the
winsys allocation succeeds. -/
theorem swr_resource_create_display_ignores_layout_witness :
    swr_resource_is_texture over4GiB_dt_pt = true ∧
    (over4GiB_dt_pt.bind_display_target || over4GiB_dt_pt.bind_scanout ||
      over4GiB_dt_pt.bind_shared) = true ∧
    swr_total_size over4GiB_dt_pt > SWR_MAX_TEXTURE_SIZE ∧
    (swr_texture_layout over4GiB_dt_pt false (fun _ => none)).ok = false ∧
    (swr_resource_create always_winsys (fun _ => none)
      over4GiB_dt_pt).isSome = true := by
  refine ⟨by decide, by decide, by decide, by decide, ?_⟩
  exact (swr_resource_create_display_ignores_layout always_winsys
    (fun _ => none) over4GiB_dt_pt (by decide) (by decide)).trans (by decide)

end Swr
